import Mathlib

/-!
Verification of the mtc-backend trend aggregation and caching engine.

The development shallowly embeds the Python source:

* `src/collectors/twitter_search.py` — `extract_hashtags`, `find_trending_topics`
* `src/collectors/google_trends_serpapi.py` — `get_trending_searches`
* `src/collectors/google_trends_rss.py` — `GoogleTrendsRSS.fetch_trends`
* `src/api.py` — the dispatcher routes `get_twitter_trends`, `get_google_trends`,
  `get_google_trends_rss`, `refresh_trends`, `get_twitter_for_trend` and the
  in-memory query cache `_twitter_cache_get` / `_twitter_cache_set`.

Modelling conventions:

* Time is a natural number of seconds; every wall-clock read (`time.time()`,
  `datetime.now().timestamp()`, file mtimes) is an explicit parameter.
* External I/O (HTTP calls, upstream payloads) is passed in as an explicit
  value describing the outcome of the call, mirroring the shape the Python
  code inspects (`"data" in tweets_data`, `'error' in data`, raised
  request/parse exceptions, HTTP status).
* JSON dicts become structures; a key the code sometimes omits becomes an
  `Option` field with `none` for "key absent".
* Python float arithmetic is idealized as exact arithmetic. The only float
  computations are `total_engagement / count`, `count * (total/count)`,
  `int(...)` truncation of those, and the presentational
  `round(age/3600, 1)`; the truncations of the exact values are integer
  floor divisions, and the rounded hours value is kept as an exact rational.
* Python `list.sort(key=..., reverse=True)` is a stable descending sort; it
  is rendered as `List.insertionSort` with the reflexive-total relation
  "has at least as large a key", which is extensionally the same stable sort.
-/

/-! ## Collector input data (Twitter search API response) -/

/-- One tweet of a `tweets/search/recent` response, as read by
`extract_hashtags`: the optional `entities.hashtags` list (tag texts) and the
`public_metrics` counters (a missing counter reads as 0 via `.get(..., 0)`). -/
structure Tweet where
  hashtags : Option (List String)
  like_count : Nat
  retweet_count : Nat
  reply_count : Nat
deriving DecidableEq, Repr

/-- Weighted engagement of one tweet:
`like_count + retweet_count * 2 + reply_count` (retweets count double). -/
def tweetEngagement (t : Tweet) : Nat :=
  t.like_count + t.retweet_count * 2 + t.reply_count

/-- `tag["tag"].lower()` — per-character lower-casing (Python `str.lower`,
idealized to the ASCII fold). -/
def strLower (s : String) : String :=
  ⟨s.data.map Char.toLower⟩

/-- The lower-cased hashtag texts of one tweet; a tweet without an
`entities.hashtags` key contributes the empty list. -/
def tweetTags (t : Tweet) : List String :=
  (t.hashtags.getD []).map strLower

/-! ## extract_hashtags (twitter_search.py lines 56-119) -/

/-- Per-tag accumulator of `hashtag_stats[tag]`: occurrence count and summed
weighted engagement. -/
structure TagStats where
  count : Nat
  total_engagement : Nat
deriving DecidableEq, Repr

/-- `hashtag_stats` is a Python dict keyed by tag; it is modelled as an
association list in insertion order. `addTag` performs
`hashtag_stats[tag]["count"] += 1; ... ["total_engagement"] += engagement`,
creating the entry (zero-initialised, then incremented) on first sight. -/
def addTag (stats : List (String × TagStats)) (tag : String) (engagement : Nat) :
    List (String × TagStats) :=
  match stats with
  | [] => [(tag, { count := 1, total_engagement := engagement })]
  | (t, s) :: rest =>
    if t = tag then
      (t, { count := s.count + 1, total_engagement := s.total_engagement + engagement }) :: rest
    else
      (t, s) :: addTag rest tag engagement

/-- The inner loop `for tag in hashtags` of one tweet. -/
def addTweet (stats : List (String × TagStats)) (t : Tweet) : List (String × TagStats) :=
  (tweetTags t).foldl (fun st tag => addTag st tag (tweetEngagement t)) stats

/-- The outer loop `for tweet in tweets_data["data"]`. -/
def collectStats (tweets : List Tweet) : List (String × TagStats) :=
  tweets.foldl addTweet []

/-- One ranked hashtag record as emitted by `extract_hashtags`. -/
structure HashtagStat where
  hashtag : String
  mentions : Nat
  total_engagement : Nat
  avg_engagement : Nat
  velocity_score : Nat
deriving DecidableEq, Repr

/-- Builds the output record for one dict entry.
`avg_engagement = int(total_engagement / count)`: truncation of the exact
quotient, i.e. floor division. `velocity_score = int(count * (total/count))`:
with exact arithmetic `count * (total/count) = (count * total)/count`, so the
truncation is the floor division `count * total / count`. -/
def mkStat (tag : String) (s : TagStats) : HashtagStat :=
  { hashtag := "#" ++ tag
    mentions := s.count
    total_engagement := s.total_engagement
    avg_engagement := s.total_engagement / s.count
    velocity_score := s.count * s.total_engagement / s.count }

/-- `extract_hashtags(tweets_data)`: `none` models a response without a
`"data"` key (the function returns `[]`); otherwise the tag statistics are
collected, formatted, and stably sorted descending by `velocity_score`. -/
def extract_hashtags (tweets_data : Option (List Tweet)) : List HashtagStat :=
  match tweets_data with
  | none => []
  | some tweets =>
    let ranked := (collectStats tweets).map (fun p => mkStat p.1 p.2)
    List.insertionSort (fun a b => b.velocity_score ≤ a.velocity_score) ranked

/-! ## find_trending_topics (twitter_search.py lines 121-180) -/

/-- One entry of the `combined` dict: per-tag totals summed across
categories (no `avg_engagement` key is kept here, exactly as in the code). -/
structure TrendItem where
  hashtag : String
  mentions : Nat
  total_engagement : Nat
  velocity_score : Nat
deriving DecidableEq, Repr

/-- One formatted trend of the final list (rank, source and timestamp are
stamped on after the final sort; the dispatcher may later add `topic`). -/
structure TwTrend where
  hashtag : String
  mentions : Nat
  total_engagement : Nat
  velocity_score : Nat
  rank : Nat
  source : String
  timestamp : Nat
  topic : Option String := none
deriving DecidableEq, Repr

/-- Return value of `find_trending_topics` (and the shape the dispatcher
reads back: `success`, `count`, `trends`, `fetched_at`, and the `error` key
present only in failure-shaped results). -/
structure TwitterFetchResult where
  success : Bool
  count : Nat
  trends : List TwTrend
  fetched_at : Nat
  error : Option String := none
deriving DecidableEq, Repr

/-- One step of the `for item in all_hashtags` merge loop: the `combined`
dict (in insertion order) is updated by summing `mentions`,
`total_engagement` and `velocity_score` for an existing tag, or appending a
fresh (zero-initialised, then incremented) entry. -/
def combineStep (combined : List TrendItem) (item : HashtagStat) : List TrendItem :=
  match combined with
  | [] =>
    [{ hashtag := item.hashtag, mentions := item.mentions,
       total_engagement := item.total_engagement, velocity_score := item.velocity_score }]
  | c :: rest =>
    if c.hashtag = item.hashtag then
      { hashtag := c.hashtag, mentions := c.mentions + item.mentions,
        total_engagement := c.total_engagement + item.total_engagement,
        velocity_score := c.velocity_score + item.velocity_score } :: rest
    else
      c :: combineStep rest item

/-- The whole `combined` dict built from the concatenated per-category
hashtag lists. -/
def combineHashtags (all_hashtags : List HashtagStat) : List TrendItem :=
  all_hashtags.foldl combineStep []

/-- One iteration of the category loop: a category whose search outcome has
no `"data"` key (HTTP error, network error) is skipped; otherwise its
extracted hashtags are appended (`all_hashtags.extend(hashtags)`). -/
def catStep (acc : List HashtagStat) (tweets_data : Option (List Tweet)) :
    List HashtagStat :=
  match tweets_data with
  | some _ => acc ++ extract_hashtags tweets_data
  | none => acc

/-- The `all_hashtags` accumulation of the category loop: each category
search outcome is `none` when the response has no `"data"` key (HTTP error,
network error), in which case it is skipped, and `some tweets` otherwise. -/
def allHashtags (categoryResults : List (Option (List Tweet))) : List HashtagStat :=
  categoryResults.foldl catStep []

/-- `find_trending_topics`: merge across categories, stable sort descending
by combined `velocity_score`, stamp contiguous ranks / source / timestamp,
report the full count but only the top 20 trends. Note that the function
returns `success: True` unconditionally. -/
def find_trending_topics (categoryResults : List (Option (List Tweet))) (now : Nat) :
    TwitterFetchResult :=
  let combined := combineHashtags (allHashtags categoryResults)
  let final_trends :=
    List.insertionSort (fun a b => b.velocity_score ≤ a.velocity_score) combined
  let final := final_trends.enum.map (fun p =>
    ({ hashtag := p.2.hashtag, mentions := p.2.mentions,
       total_engagement := p.2.total_engagement, velocity_score := p.2.velocity_score,
       rank := p.1 + 1, source := "twitter_search", timestamp := now } : TwTrend))
  { success := true, count := final.length, trends := final.take 20, fetched_at := now }

/-! ## get_trending_searches (google_trends_serpapi.py lines 21-91) -/

/-- One pre-ranked trend object from the SerpAPI response; its fields are
passed through verbatim, so they are kept opaque behind the query string. -/
structure GTrend where
  query : String
deriving DecidableEq, Repr

/-- The JSON document served by `/trends/google` and stored in its cache
slot. Optional fields are keys the code only sometimes writes. -/
structure GoogleBody where
  success : Bool
  count : Nat := 0
  total_available : Nat := 0
  geo : String := ""
  fetched_at : Nat := 0
  source : String := ""
  trends : List GTrend := []
  error : Option String := none
  message : Option String := none
  cached : Option Bool := none
  cache_age_seconds : Option Nat := none
  cache_age_hours : Option ℚ := none
deriving DecidableEq, Repr

/-- Outcome of the SerpAPI HTTP call: a raised request exception (network
failure, timeout, or non-2xx via `raise_for_status`), or a JSON body with an
optional declared `error` field and the `trending_searches` array. -/
inductive SerpUpstream where
  | requestError (msg : String)
  | response (error : Option String) (trending_searches : List GTrend)
deriving DecidableEq, Repr

/-- `get_trending_searches(geo, limit)`. `limit = 0` models Python
`limit=None` (and `0`): both are falsy, so no truncation is applied. A
declared `error` field fails the call even on HTTP success; an empty
`trending_searches` array is returned as a failure. -/
def get_trending_searches (geo : String) (limit : Nat) (upstream : SerpUpstream)
    (now : Nat) : GoogleBody :=
  match upstream with
  | .requestError msg =>
    { success := false, error := some msg, message := some "Failed to fetch from SerpAPI" }
  | .response (some e) _ =>
    { success := false, error := some e, message := some "SerpAPI returned an error" }
  | .response none trending_searches =>
    if trending_searches.isEmpty then
      { success := false, error := some "No trending searches found",
        message := some "API returned empty results" }
    else
      let ts := if limit ≠ 0 then trending_searches.take limit else trending_searches
      { success := true, count := ts.length, total_available := trending_searches.length,
        geo := geo, fetched_at := now, source := "serpapi_trending_now", trends := ts }

/-! ## GoogleTrendsRSS.fetch_trends (google_trends_rss.py lines 17-112) -/

/-- One `ht:news_item` sub-entry of a feed item (each sub-element may be
absent). -/
structure NewsItem where
  title : Option String
  url : Option String
  source : Option String
deriving DecidableEq, Repr

/-- One `<item>` of the parsed feed; every child element may be absent. -/
structure RssItem where
  title : Option String
  link : Option String
  pub_date : Option String
  approx_traffic : Option String
  news_items : List NewsItem
deriving DecidableEq, Repr

/-- A surfaced related article (only news items with both a title and a url
are kept). -/
structure RelatedArticle where
  title : String
  url : String
  source : Option String
deriving DecidableEq, Repr

/-- One formatted RSS trend record. -/
structure RssTrend where
  rank : Nat
  topic : String
  url : Option String
  pub_date : Option String
  approximate_traffic : Option String
  related_articles : List RelatedArticle
  source : String
  geo : String
  timestamp : Nat
deriving DecidableEq, Repr

/-- The JSON document served by `/trends/google/rss` and stored in its cache
slot. The top-level `source` key is written only by the route. -/
structure RssBody where
  success : Bool
  count : Nat := 0
  trends : List RssTrend := []
  geo : String := ""
  fetched_at : Nat := 0
  error : Option String := none
  message : Option String := none
  cached : Option Bool := none
  cache_age_seconds : Option Nat := none
  source : Option String := none
deriving DecidableEq, Repr

/-- Outcome of the RSS fetch: a raised request exception, a non-200 HTTP
status, an XML parse failure, or a well-formed document with its ordered
item list. -/
inductive RssUpstream where
  | requestError (msg : String)
  | httpError (status : Nat) (body : String)
  | parseError (msg : String)
  | parsed (items : List RssItem)
deriving DecidableEq, Repr

/-- `for news in news_items[:3]`: keep a sub-entry only when both title and
url elements are present. -/
def relatedArticles (news_items : List NewsItem) : List RelatedArticle :=
  (news_items.take 3).filterMap (fun n =>
    match n.title, n.url with
    | some t, some u => some { title := t, url := u, source := n.source }
    | _, _ => none)

/-- `fetch_trends(geo)`: document order is the rank order (first entry =
rank 1); a well-formed feed with zero items yields `success: True` with an
empty list. -/
def fetch_trends (geo : String) (upstream : RssUpstream) (now : Nat) : RssBody :=
  match upstream with
  | .httpError status body =>
    { success := false, error := some ("HTTP " ++ toString status),
      message := some (body.take 200) }
  | .requestError msg =>
    { success := false, error := some "Network error", message := some msg }
  | .parseError msg =>
    { success := false, error := some "XML parse error", message := some msg }
  | .parsed items =>
    let trends := items.enum.map (fun p =>
      ({ rank := p.1 + 1, topic := p.2.title.getD "Unknown", url := p.2.link,
         pub_date := p.2.pub_date, approximate_traffic := p.2.approx_traffic,
         related_articles := relatedArticles p.2.news_items,
         source := "google_trends_rss", geo := geo, timestamp := now } : RssTrend))
    { success := true, count := trends.length, trends := trends, geo := geo,
      fetched_at := now }

/-! ## api.py dispatcher -/

/-- An HTTP-level route outcome: a JSON body on success, or an error body
(status code, `error`, `message`, and for the google route a `details` key). -/
inductive ApiResult (β : Type) where
  | ok (body : β)
  | err (status : Nat) (error : String) (message : String) (details : Option String)
deriving DecidableEq

/-- The JSON document served by `/trends/twitter` and stored in the
`twitter-trends-latest.json` cache slot. -/
structure TwitterBody where
  success : Bool
  count : Nat
  trends : List TwTrend
  fetched_at : Nat
  error : Option String := none
  cached : Option Bool := none
  cache_age_seconds : Option Nat := none
deriving DecidableEq, Repr

/-- `if 'hashtag' in trend and 'topic' not in trend: trend['topic'] =
trend['hashtag']` — every trend record carries `hashtag`, so only the
`topic` presence check matters. -/
def normalizeTrend (t : TwTrend) : TwTrend :=
  if t.topic.isNone then { t with topic := some t.hashtag } else t

/-- A disk-backed cache slot: the stored JSON document plus the file mtime
used to compute the age. `none` models a missing cache file. -/
def DiskSlot (β : Type) : Type := Option (β × Nat)

/-- The fetch-and-store tail of `get_twitter_trends` (lines 216-237): on
collector success the normalized full result is dumped to the cache file,
then the response is truncated to `limit` and annotated `cached=False`; on
failure a 500 error is returned and the cache file is left untouched. -/
def twitterFetchPath (limit : Nat) (cache : DiskSlot TwitterBody) (now : Nat)
    (result : TwitterFetchResult) : ApiResult TwitterBody × DiskSlot TwitterBody :=
  if result.success then
    let stored : TwitterBody :=
      { success := result.success, count := result.count,
        trends := result.trends.map normalizeTrend, fetched_at := result.fetched_at,
        error := result.error }
    (.ok { stored with trends := stored.trends.take limit, cached := some false },
     some (stored, now))
  else
    (.err 500 "Failed to fetch trends" (result.error.getD "Unknown error") none, cache)

/-- `get_twitter_trends(limit, fresh)` (lines 186-237). The collector call
`twitter_collector.find_trending_topics()` is passed in as `result`. A
non-fresh read of a cache file younger than 3600 s serves the stored
document (normalized, truncated to `limit`) annotated `cached=True` and
`cache_age_seconds`; otherwise the fetch path runs. -/
def get_twitter_trends (limit : Nat) (fresh : Bool) (cache : DiskSlot TwitterBody)
    (now : Nat) (result : TwitterFetchResult) :
    ApiResult TwitterBody × DiskSlot TwitterBody :=
  match fresh, cache with
  | false, some (stored, mtime) =>
    if now - mtime < 3600 then
      (.ok { stored with
          trends := (stored.trends.map normalizeTrend).take limit,
          cached := some true, cache_age_seconds := some (now - mtime) },
       some (stored, mtime))
    else
      twitterFetchPath limit (some (stored, mtime)) now result
  | _, _ => twitterFetchPath limit cache now result

/-- `round(cache_age / 3600, 1)`: the cache age in hours, rounded to one
decimal (exact-rational idealization of the float computation). -/
def googleHours (age : Nat) : ℚ :=
  ((round ((age : ℚ) * 10 / 3600) : ℤ) : ℚ) / 10

/-- The fetch-and-store tail of `get_google_trends` (lines 311-329): the
collector already applied `limit`; on success `cached=False` is set before
the dump, so it is persisted; on failure a 500 error carrying `message` and
`details` is returned and the cache file is left untouched. -/
def googleFetchPath (limit : Nat) (geo : String) (cache : DiskSlot GoogleBody)
    (now : Nat) (upstream : SerpUpstream) : ApiResult GoogleBody × DiskSlot GoogleBody :=
  let result := get_trending_searches geo limit upstream now
  if result.success then
    let stored := { result with cached := some false }
    (.ok stored, some (stored, now))
  else
    (.err 500 "Failed to fetch Google trends" (result.message.getD "Unknown error")
      (some (result.error.getD "")), cache)

/-- `get_google_trends` (lines 285-329). A non-fresh read of a cache file
younger than 43200 s (12 h) serves the stored document — truncated only when
`limit` is non-zero and smaller than the stored list — annotated
`cached=True`, `cache_age_seconds` and `cache_age_hours`. -/
def get_google_trends (limit : Nat) (fresh : Bool) (geo : String)
    (cache : DiskSlot GoogleBody) (now : Nat) (upstream : SerpUpstream) :
    ApiResult GoogleBody × DiskSlot GoogleBody :=
  match fresh, cache with
  | false, some (stored, mtime) =>
    if now - mtime < 43200 then
      (.ok { stored with
          trends :=
            if limit ≠ 0 ∧ limit < stored.trends.length then stored.trends.take limit
            else stored.trends,
          cached := some true, cache_age_seconds := some (now - mtime),
          cache_age_hours := some (googleHours (now - mtime)) },
       some (stored, mtime))
    else
      googleFetchPath limit geo (some (stored, mtime)) now upstream
  | _, _ => googleFetchPath limit geo cache now upstream

/-- The fetch-and-store tail of `get_google_trends_rss` (lines 357-374): the
full result is dumped to the cache file first, then the response is
truncated to `limit`, annotated `cached=False`, and its top-level `source`
is overwritten with `rss_fallback`. On failure the collector `error` string
is surfaced as the route `message`. -/
def rssFetchPath (limit : Nat) (geo : String) (cache : DiskSlot RssBody) (now : Nat)
    (upstream : RssUpstream) : ApiResult RssBody × DiskSlot RssBody :=
  let result := fetch_trends geo upstream now
  if result.success then
    let resp := { result with
      trends := result.trends.take limit, cached := some false,
      source := some "rss_fallback" }
    (.ok resp, some (result, now))
  else
    (.err 500 "Failed to fetch Google trends" (result.error.getD "Unknown error") none,
     cache)

/-- `get_google_trends_rss` (lines 332-374), TTL 7200 s (2 h). -/
def get_google_trends_rss (limit : Nat) (geo : String) (fresh : Bool)
    (cache : DiskSlot RssBody) (now : Nat) (upstream : RssUpstream) :
    ApiResult RssBody × DiskSlot RssBody :=
  match fresh, cache with
  | false, some (stored, mtime) =>
    if now - mtime < 7200 then
      let body := { stored with
        trends := stored.trends.take limit, cached := some true,
        cache_age_seconds := some (now - mtime) }
      (.ok body, some (stored, mtime))
    else
      rssFetchPath limit geo (some (stored, mtime)) now upstream
  | _, _ => rssFetchPath limit geo cache now upstream

/-- Body of a successful `/trends/refresh` response. -/
structure RefreshBody where
  success : Bool
  message : String
  count : Nat
  fetched_at : Nat
deriving DecidableEq, Repr

/-- `refresh_trends` (lines 377-398): always calls the collector (no cache
read); on success the raw result (no topic normalization here) is dumped to
the twitter cache slot; on failure a 500 error is returned and the cache
file is left untouched. -/
def refresh_trends (cache : DiskSlot TwitterBody) (now : Nat)
    (result : TwitterFetchResult) : ApiResult RefreshBody × DiskSlot TwitterBody :=
  if result.success then
    let body : RefreshBody :=
      { success := true, message := "Trends refreshed successfully",
        count := result.count, fetched_at := result.fetched_at }
    let stored : TwitterBody :=
      { success := result.success, count := result.count, trends := result.trends,
        fetched_at := result.fetched_at, error := result.error }
    (.ok body, some (stored, now))
  else
    (.err 500 "Failed to refresh trends" (result.error.getD "Unknown error") none, cache)

/-! ## In-memory per-query tweet-search cache (api.py lines 40-53, 240-282) -/

/-- One `_twitter_search_cache` entry: `{"data": ..., "expires": t + TTL}`. -/
structure MemEntry (α : Type) where
  data : α
  expires : Nat
deriving DecidableEq

/-- `_twitter_cache_get`: fresh iff `time.time() < entry["expires"]` (strict);
an expired entry is deleted on read. Returns the hit (if any) and the slot
state after the read. -/
def twitter_cache_get {α : Type} (entry : Option (MemEntry α)) (now : Nat) :
    Option α × Option (MemEntry α) :=
  match entry with
  | some e => if now < e.expires then (some e.data, some e) else (none, none)
  | none => (none, none)

/-- `_twitter_cache_set`: store with `expires = time.time() + 3600`. -/
def twitter_cache_set {α : Type} (data : α) (now : Nat) : MemEntry α :=
  { data := data, expires := now + 3600 }

/-- One tweet record built by `_fetch_tweets_from_api`. -/
structure TweetRec where
  id : String
  text : String
  author : String
  engagement_score : Nat
deriving DecidableEq, Repr

/-- Outcome of `_fetch_tweets_from_api` as inspected by the route: an
`error`-keyed dict, or the engagement-sorted tweet list. -/
inductive TweetsFetch where
  | fetchError (msg : String)
  | fetchOk (tweets : List TweetRec)
deriving DecidableEq, Repr

/-- The JSON document served by `/trends/twitter/search` and stored in the
in-memory query cache. Note there is no `cache_age_seconds` key on this
path. -/
structure SearchBody where
  success : Bool
  query : String
  count : Nat := 0
  tweets : List TweetRec := []
  fetched_at : Nat
  error : Option String := none
  cached : Option Bool := none
  cache_age_seconds : Option Nat := none
deriving DecidableEq, Repr

/-- `get_twitter_for_trend` (lines 240-282) for one query key: on a cache
hit the stored response is returned with `cached` set to `True` (the code
mutates the shared dict, so the slot now holds the same annotated body); on
a miss the fetch runs, the trimmed response is cached with `cached=False`,
or a 503 error body is returned. Returns `(status, body)` and the slot
state. -/
def get_twitter_for_trend (query : String) (limitArg : Nat)
    (entry : Option (MemEntry SearchBody)) (now : Nat) (fetched : TweetsFetch) :
    (Nat × SearchBody) × Option (MemEntry SearchBody) :=
  let limit := min limitArg 20
  match twitter_cache_get entry now with
  | (some d, slot) =>
    let body := { d with cached := some true }
    ((200, body), slot.map (fun e => { e with data := body }))
  | (none, slot) =>
    match fetched with
    | .fetchError msg =>
      ((503, { success := false, query := query, error := some msg, fetched_at := now }),
       slot)
    | .fetchOk tweets =>
      let tws := tweets.take limit
      let response : SearchBody :=
        { success := true, query := query, count := tws.length, tweets := tws,
          fetched_at := now, cached := some false }
      ((200, response), some (twitter_cache_set response now))

/-! ## Derived views of the merge (used to state totals-related claims) -/

/-- The per-tag totals triple `(mentions, total_engagement, velocity_score)`
of a merged entry. -/
def trendTriple (c : TrendItem) : Nat × Nat × Nat :=
  (c.mentions, c.total_engagement, c.velocity_score)

/-- The same triple read off an unmerged hashtag record. -/
def itemTriple (it : HashtagStat) : Nat × Nat × Nat :=
  (it.mentions, it.total_engagement, it.velocity_score)

/-- Componentwise addition of totals triples. -/
def addT (a b : Nat × Nat × Nat) : Nat × Nat × Nat :=
  (a.1 + b.1, a.2.1 + b.2.1, a.2.2 + b.2.2)

/-- The merged totals the `combined` dict holds for `tag`, if present. -/
def mergedFor (l : List TrendItem) (tag : String) : Option (Nat × Nat × Nat) :=
  (l.find? (fun c => decide (c.hashtag = tag))).map trendTriple

/-- The input records carrying `tag`. -/
def tagged (items : List HashtagStat) (tag : String) : List HashtagStat :=
  items.filter (fun it => decide (it.hashtag = tag))

/-- Componentwise sums of all input records carrying `tag`. -/
def tagSums (items : List HashtagStat) (tag : String) : Nat × Nat × Nat :=
  (((tagged items tag).map (fun it => it.mentions)).sum,
   ((tagged items tag).map (fun it => it.total_engagement)).sum,
   ((tagged items tag).map (fun it => it.velocity_score)).sum)

/-- Merge of two optional totals (absent acts as the neutral element). -/
def optAdd : Option (Nat × Nat × Nat) → Option (Nat × Nat × Nat) → Option (Nat × Nat × Nat)
  | none, b => b
  | some a, none => some a
  | some a, some b => some (addT a b)

/-! ## Helper lemmas -/

lemma addT_zero_right (a : Nat × Nat × Nat) : addT a 0 = a := by
  obtain ⟨x, y, z⟩ := a
  simp [addT]

lemma addT_zero_left (a : Nat × Nat × Nat) : addT 0 a = a := by
  obtain ⟨x, y, z⟩ := a
  simp [addT]

lemma addT_assoc (a b c : Nat × Nat × Nat) : addT (addT a b) c = addT a (addT b c) := by
  simp [addT, Nat.add_assoc]

lemma addTag_count_pos : ∀ (stats : List (String × TagStats)) (tag : String) (e : Nat),
    (∀ p ∈ stats, 0 < p.2.count) → ∀ p ∈ addTag stats tag e, 0 < p.2.count := by
  intro stats
  induction stats with
  | nil =>
    intro tag e _ p hp
    simp only [addTag, List.mem_singleton] at hp
    simp [hp]
  | cons q rest ih =>
    intro tag e h p hp
    obtain ⟨t, s⟩ := q
    by_cases hq : t = tag
    · simp only [addTag, if_pos hq, List.mem_cons] at hp
      rcases hp with hp | hp
      · simp [hp]
      · exact h p (List.mem_cons_of_mem _ hp)
    · simp only [addTag, if_neg hq, List.mem_cons] at hp
      rcases hp with hp | hp
      · subst hp; exact h _ (List.mem_cons_self _ _)
      · exact ih tag e (fun q hq2 => h q (List.mem_cons_of_mem _ hq2)) p hp

lemma foldl_addTag_count_pos (tags : List String) (e : Nat) :
    ∀ (acc : List (String × TagStats)), (∀ p ∈ acc, 0 < p.2.count) →
      ∀ p ∈ tags.foldl (fun st tag => addTag st tag e) acc, 0 < p.2.count := by
  induction tags with
  | nil => intro acc h; exact h
  | cons t ts ih =>
    intro acc h
    exact ih _ (addTag_count_pos acc t e h)

lemma collectStats_count_pos (tweets : List Tweet) :
    ∀ p ∈ collectStats tweets, 0 < p.2.count := by
  have main : ∀ (tws : List Tweet) (acc : List (String × TagStats)),
      (∀ p ∈ acc, 0 < p.2.count) → ∀ p ∈ tws.foldl addTweet acc, 0 < p.2.count := by
    intro tws
    induction tws with
    | nil => intro acc h; exact h
    | cons t ts ih =>
      intro acc h
      exact ih _ (foldl_addTag_count_pos (tweetTags t) (tweetEngagement t) acc h)
  exact main tweets [] (by simp)

lemma normalizeTrend_idem (t : TwTrend) :
    normalizeTrend (normalizeTrend t) = normalizeTrend t := by
  by_cases h : t.topic.isNone <;> simp [normalizeTrend, h]

lemma range'_take : ∀ (n k s : Nat), (List.range' s n).take k = List.range' s (min k n) := by
  intro n
  induction n with
  | zero => simp
  | succ n ih =>
    intro k s
    cases k with
    | zero => simp
    | succ k => simp [List.range'_succ, ih, Nat.succ_min_succ]

lemma enum_map_add_one {α : Type} (l : List α) :
    l.enum.map (fun p => p.1 + 1) = List.range' 1 l.length := by
  have h1 : l.enum.map (fun p => p.1 + 1) = (l.enum.map Prod.fst).map (fun i => i + 1) := by
    rw [List.map_map]; rfl
  rw [h1, List.enum_map_fst, List.range'_eq_map_range]
  exact List.map_congr_left (fun i _ => Nat.add_comm i 1)

lemma map_rank_enum {α β : Type} (f : β → Nat) (g : Nat × α → β)
    (h : ∀ p, f (g p) = p.1 + 1) (l : List α) :
    (l.enum.map g).map f = List.range' 1 ((l.enum.map g).length) := by
  rw [List.map_map]
  have hfg : (f ∘ g) = fun p => p.1 + 1 := funext h
  rw [hfg, enum_map_add_one]
  simp [List.enum_length]

lemma map_rank_enum_take {α β : Type} (f : β → Nat) (g : Nat × α → β)
    (h : ∀ p, f (g p) = p.1 + 1) (l : List α) (k : Nat) :
    ((l.enum.map g).take k).map f = List.range' 1 (((l.enum.map g).take k).length) := by
  rw [List.map_take, List.map_map]
  have hfg : (f ∘ g) = fun p => p.1 + 1 := funext h
  rw [hfg, enum_map_add_one, List.length_take, range'_take]
  simp [List.enum_length]

lemma mergedFor_nil (tag : String) : mergedFor [] tag = none := rfl

lemma mergedFor_cons (c : TrendItem) (rest : List TrendItem) (tag : String) :
    mergedFor (c :: rest) tag =
      if c.hashtag = tag then some (trendTriple c) else mergedFor rest tag := by
  by_cases h : c.hashtag = tag <;> simp [mergedFor, List.find?_cons, h]

lemma mergedFor_combineStep (acc : List TrendItem) (it : HashtagStat) (tag : String) :
    mergedFor (combineStep acc it) tag =
      if it.hashtag = tag then
        match mergedFor acc tag with
        | some t => some (addT t (itemTriple it))
        | none => some (itemTriple it)
      else mergedFor acc tag := by
  induction acc with
  | nil =>
    by_cases h : it.hashtag = tag <;>
      simp [combineStep, mergedFor_cons, mergedFor_nil, h, trendTriple, itemTriple]
  | cons c rest ih =>
    by_cases h1 : c.hashtag = it.hashtag
    · by_cases h2 : c.hashtag = tag
      · have h3 : it.hashtag = tag := h1 ▸ h2
        simp [combineStep, h1, mergedFor_cons, h2, h3, trendTriple, itemTriple, addT]
      · have h3 : ¬ it.hashtag = tag := fun e => h2 (h1.trans e)
        simp [combineStep, h1, mergedFor_cons, h2, h3]
    · by_cases h2 : c.hashtag = tag
      · have h3 : ¬ it.hashtag = tag := fun e => h1 (h2.trans e.symm)
        simp only [combineStep, if_neg h1]
        simp [mergedFor_cons, h2, h3]
      · simp [combineStep, h1, mergedFor_cons, h2, ih]

lemma tagSums_cons (it : HashtagStat) (items : List HashtagStat) (tag : String) :
    tagSums (it :: items) tag =
      if it.hashtag = tag then addT (itemTriple it) (tagSums items tag)
      else tagSums items tag := by
  by_cases h : it.hashtag = tag <;>
    simp [tagSums, tagged, List.filter_cons, h, addT, itemTriple]

lemma mergedFor_foldl : ∀ (items : List HashtagStat) (acc : List TrendItem) (tag : String),
    mergedFor (items.foldl combineStep acc) tag =
      match mergedFor acc tag with
      | some t => some (addT t (tagSums items tag))
      | none =>
        if tag ∈ items.map (fun h => h.hashtag) then some (tagSums items tag) else none := by
  intro items
  induction items with
  | nil =>
    intro acc tag
    cases h : mergedFor acc tag <;> simp [h, tagSums, tagged, addT_zero_right]
  | cons it items ih =>
    intro acc tag
    rw [List.foldl_cons, ih (combineStep acc it) tag, mergedFor_combineStep]
    by_cases h1 : it.hashtag = tag
    · rw [if_pos h1]
      cases h2 : mergedFor acc tag
      · simp [tagSums_cons, h1, h2]
      · simp [tagSums_cons, h1, h2, addT_assoc]
    · rw [if_neg h1]
      cases h2 : mergedFor acc tag
      · have h3 : ¬ tag = it.hashtag := fun e => h1 e.symm
        simp [tagSums_cons, h1, h2, List.map_cons, List.mem_cons, h3]
      · simp [tagSums_cons, h1, h2]

lemma combineHashtags_spec (items : List HashtagStat) (tag : String) :
    mergedFor (combineHashtags items) tag =
      if tag ∈ items.map (fun h => h.hashtag) then some (tagSums items tag) else none := by
  have h := mergedFor_foldl items [] tag
  simpa [combineHashtags, mergedFor_nil] using h

lemma tagSums_perm {l₁ l₂ : List HashtagStat} (h : l₁.Perm l₂) (tag : String) :
    tagSums l₁ tag = tagSums l₂ tag := by
  have hf := h.filter (fun it => decide (it.hashtag = tag))
  unfold tagSums tagged
  rw [(hf.map (fun it => it.mentions)).sum_eq,
      (hf.map (fun it => it.total_engagement)).sum_eq,
      (hf.map (fun it => it.velocity_score)).sum_eq]

lemma tagSums_append (l₁ l₂ : List HashtagStat) (tag : String) :
    tagSums (l₁ ++ l₂) tag = addT (tagSums l₁ tag) (tagSums l₂ tag) := by
  simp [tagSums, tagged, List.filter_append, addT]

lemma tagSums_zero {l : List HashtagStat} {tag : String}
    (h : tag ∉ l.map (fun x => x.hashtag)) : tagSums l tag = 0 := by
  have he : tagged l tag = [] := by
    rw [tagged, List.filter_eq_nil_iff]
    intro a ha
    simp only [decide_eq_true_eq]
    intro e
    exact h (List.mem_map.mpr ⟨a, ha, e⟩)
  simp [tagSums, he]

lemma combineHashtags_append (l₁ l₂ : List HashtagStat) (tag : String) :
    mergedFor (combineHashtags (l₁ ++ l₂)) tag =
      optAdd (mergedFor (combineHashtags l₁) tag) (mergedFor (combineHashtags l₂) tag) := by
  rw [combineHashtags_spec, combineHashtags_spec, combineHashtags_spec]
  by_cases h1 : tag ∈ l₁.map (fun x => x.hashtag) <;>
    by_cases h2 : tag ∈ l₂.map (fun x => x.hashtag) <;>
      simp [List.map_append, List.mem_append, h1, h2, optAdd, tagSums_append,
            tagSums_zero, addT_zero_right, addT_zero_left]

lemma combineStep_map_hashtag (acc : List TrendItem) (it : HashtagStat) :
    (combineStep acc it).map (fun c => c.hashtag) =
      if it.hashtag ∈ acc.map (fun c => c.hashtag) then acc.map (fun c => c.hashtag)
      else acc.map (fun c => c.hashtag) ++ [it.hashtag] := by
  induction acc with
  | nil => simp [combineStep]
  | cons c rest ih =>
    by_cases h : c.hashtag = it.hashtag
    · simp [combineStep, h, List.map_cons]
    · have h2 : ¬ it.hashtag = c.hashtag := fun e => h e.symm
      simp only [combineStep, if_neg h, List.map_cons, ih, List.mem_cons, h2, false_or]
      split_ifs <;> simp

lemma mem_map_combine (items : List HashtagStat) : ∀ (acc : List TrendItem) (tag : String),
    tag ∈ ((items.foldl combineStep acc).map (fun c => c.hashtag)) ↔
      tag ∈ acc.map (fun c => c.hashtag) ∨ tag ∈ items.map (fun h => h.hashtag) := by
  induction items with
  | nil => simp
  | cons it items ih =>
    intro acc tag
    rw [List.foldl_cons, ih, combineStep_map_hashtag]
    split_ifs with h
    · simp only [List.map_cons, List.mem_cons]
      constructor
      · rintro (h1 | h1)
        · exact Or.inl h1
        · exact Or.inr (Or.inr h1)
      · rintro (h1 | h1 | h1)
        · exact Or.inl h1
        · exact Or.inl (h1 ▸ h)
        · exact Or.inr h1
    · simp only [List.mem_append, List.map_cons, List.mem_cons, List.mem_singleton]
      tauto

lemma nodup_map_combine (items : List HashtagStat) : ∀ (acc : List TrendItem),
    ((acc.map (fun c => c.hashtag)).Nodup) →
      (((items.foldl combineStep acc).map (fun c => c.hashtag)).Nodup) := by
  induction items with
  | nil => exact fun _ h => h
  | cons it items ih =>
    intro acc h
    rw [List.foldl_cons]
    apply ih
    rw [combineStep_map_hashtag]
    split_ifs with hmem
    · exact h
    · simp [List.nodup_append, h, hmem]

lemma foldl_catStep_filter : ∀ (crs : List (Option (List Tweet))) (acc : List HashtagStat),
    crs.foldl catStep acc = (crs.filter (fun c => c.isSome)).foldl catStep acc := by
  intro crs
  induction crs with
  | nil => intro acc; rfl
  | cons c rest ih =>
    intro acc
    cases c with
    | none => simp [catStep, List.filter_cons, Option.isSome, ih]
    | some tw => simp [catStep, List.filter_cons, Option.isSome, ih]

lemma foldl_catStep_replicate_none : ∀ (n : Nat) (acc : List HashtagStat),
    (List.replicate n (none : Option (List Tweet))).foldl catStep acc = acc := by
  intro n
  induction n with
  | zero => intro acc; rfl
  | succ n ih =>
    intro acc
    simp [List.replicate_succ, catStep, ih]

/-! ## Sample data used by witnesses and counterexamples -/

/-- A tweet carrying one hashtag and one like. -/
def twLike1 : Tweet :=
  { hashtags := some ["a"], like_count := 1, retweet_count := 0, reply_count := 0 }

/-- A tweet carrying the same hashtag and no engagement. -/
def twLike0 : Tweet :=
  { hashtags := some ["a"], like_count := 0, retweet_count := 0, reply_count := 0 }

/-- The record `extract_hashtags` produces from `[twLike1, twLike0]`. -/
def statA : HashtagStat :=
  { hashtag := "#a", mentions := 2, total_engagement := 1, avg_engagement := 0,
    velocity_score := 1 }

/-- A per-category hashtag record. -/
def hsP : HashtagStat :=
  { hashtag := "#p", mentions := 1, total_engagement := 2, avg_engagement := 2,
    velocity_score := 2 }

/-- Another per-category hashtag record. -/
def hsQ : HashtagStat :=
  { hashtag := "#q", mentions := 3, total_engagement := 4, avg_engagement := 1,
    velocity_score := 4 }

/-! ## Claim theorems -/

/-- C1 (counterexample). On the two-tweet input `[twLike1, twLike0]` the
hashtag `#a` gets `mentions = 2`, `total_engagement = 1`, stored
`avg_engagement = int(1/2) = 0` and `velocity_score = int(2 * (1/2)) = 1`,
so the produced record violates
`velocity_score = mentions * avg_engagement` (1 ≠ 2 * 0): the claim as
stated fails on the record fields `extract_hashtags` emits. -/
theorem extract_hashtags_velocity_claim_counterexample :
    ¬ ∀ r ∈ extract_hashtags (some [twLike1, twLike0]),
        r.velocity_score = r.mentions * r.avg_engagement := by decide

/-- C1 (amended). Every record produced by `extract_hashtags` has
`mentions > 0`, `velocity_score = total_engagement` (the exact product
`mentions × (total_engagement / mentions)` before truncation), and the
stored `avg_engagement` is the integer truncation
`total_engagement / mentions`; `velocity_score = mentions * avg_engagement`
holds only when `mentions` divides `total_engagement`. -/
theorem extract_hashtags_velocity_total (tweets_data : Option (List Tweet))
    (r : HashtagStat) (hr : r ∈ extract_hashtags tweets_data) :
    0 < r.mentions ∧ r.velocity_score = r.total_engagement ∧
      r.avg_engagement = r.total_engagement / r.mentions := by
  match tweets_data with
  | none => simp [extract_hashtags] at hr
  | some tweets =>
    have hr1 : r ∈ List.insertionSort (fun a b => b.velocity_score ≤ a.velocity_score)
        ((collectStats tweets).map (fun p => mkStat p.1 p.2)) := hr
    have hr2 := (List.perm_insertionSort
      (fun a b : HashtagStat => b.velocity_score ≤ a.velocity_score) _).mem_iff.mp hr1
    rcases List.mem_map.mp hr2 with ⟨p, hp, rfl⟩
    have hc := collectStats_count_pos tweets p hp
    exact ⟨hc, Nat.mul_div_cancel_left _ hc, rfl⟩

/-- C1 (witness): the amended theorem applied to the record produced from
the concrete two-tweet input. -/
theorem extract_hashtags_velocity_total_witness :
    0 < statA.mentions ∧ statA.velocity_score = statA.total_engagement ∧
      statA.avg_engagement = statA.total_engagement / statA.mentions :=
  extract_hashtags_velocity_total (some [twLike1, twLike0]) statA (by decide)

/-- C2 (counterexample). When every category errors (`[none, none]`),
`find_trending_topics` still returns `success = True` with an empty trend
list — not a failure result, contradicting the claim that the fetch fails
iff all categories error. -/
theorem find_trending_all_error_counterexample :
    (find_trending_topics [none, none] 0).success = true ∧
    (find_trending_topics [none, none] 0).count = 0 ∧
    (find_trending_topics [none, none] 0).trends = [] := by decide

/-- C2 (amended). `find_trending_topics` always reports success; errored
categories are skipped (the result equals the result on the successful
categories alone); when all categories error the result is a success with
zero count and an empty trend list, never a failure result. -/
theorem find_trending_never_fails (crs : List (Option (List Tweet))) (now : Nat) :
    (find_trending_topics crs now).success = true ∧
    find_trending_topics crs now =
      find_trending_topics (crs.filter (fun c => c.isSome)) now ∧
    ∀ n : Nat, find_trending_topics (List.replicate n (none : Option (List Tweet))) now =
      { success := true, count := 0, trends := [], fetched_at := now } := by
  refine ⟨rfl, ?_, ?_⟩
  · unfold find_trending_topics allHashtags
    rw [foldl_catStep_filter]
  · intro n
    unfold find_trending_topics allHashtags
    rw [foldl_catStep_replicate_none]
    rfl

/-- C5 (counterexample). The code handles empty upstream results with the
opposite polarity to the claim: `get_trending_searches` (aggregator) turns
an empty `trending_searches` array into a failure, while `fetch_trends`
(feed) returns success for a well-formed feed with zero items. -/
theorem empty_result_polarity_counterexample :
    (get_trending_searches "US" 0 (.response none []) 0).success = false ∧
    (fetch_trends "US" (.parsed []) 0).success = true := by decide

/-- C5 (amended). A zero-item successful upstream response is handled
asymmetrically, but in the direction opposite to the claim: the aggregator
source fails (`success: False`, error `No trending searches found`), while
the feed source succeeds with `count = 0` and an empty trend list. -/
theorem empty_result_polarity (geo : String) (limit now : Nat) :
    get_trending_searches geo limit (.response none []) now =
      { success := false, error := some "No trending searches found",
        message := some "API returned empty results" } ∧
    fetch_trends geo (.parsed []) now =
      { success := true, count := 0, trends := [], geo := geo, fetched_at := now } :=
  ⟨rfl, rfl⟩

/-- C7 (confirmed). The cross-category merge is commutative and associative
over the list-of-lists input: permuting the category lists leaves every
per-tag merged total `(mentions, total_engagement, velocity_score)`
unchanged, and merging an appended pair of inputs adds the per-tag totals of
the parts (absent tags acting neutrally). -/
theorem merge_totals_invariant (ls₁ ls₂ : List (List HashtagStat)) (h : ls₁.Perm ls₂) :
    (∀ tag, mergedFor (combineHashtags ls₁.flatten) tag =
        mergedFor (combineHashtags ls₂.flatten) tag) ∧
    ∀ (xs ys : List (List HashtagStat)) (tag : String),
      mergedFor (combineHashtags (xs ++ ys).flatten) tag =
        optAdd (mergedFor (combineHashtags xs.flatten) tag)
          (mergedFor (combineHashtags ys.flatten) tag) := by
  constructor
  · intro tag
    have hp : ls₁.flatten.Perm ls₂.flatten := h.flatten
    rw [combineHashtags_spec, combineHashtags_spec, tagSums_perm hp tag]
    have hm := (hp.map (fun x => x.hashtag)).mem_iff (a := tag)
    by_cases h1 : tag ∈ ls₁.flatten.map (fun x => x.hashtag)
    · rw [if_pos h1, if_pos (hm.mp h1)]
    · rw [if_neg h1, if_neg (fun hx => h1 (hm.mpr hx))]
  · intro xs ys tag
    rw [List.flatten_append]
    exact combineHashtags_append _ _ tag

/-- C7 (witness): the permutation-invariance part applied to two concrete
swapped category lists. -/
theorem merge_totals_invariant_witness :
    mergedFor (combineHashtags ([[hsP], [hsQ]] : List (List HashtagStat)).flatten) "#p" =
      mergedFor (combineHashtags ([[hsQ], [hsP]] : List (List HashtagStat)).flatten) "#p" :=
  (merge_totals_invariant [[hsP], [hsQ]] [[hsQ], [hsP]] (by decide)).1 "#p"

/-- C6 (confirmed). In both collector outputs — the merged search-engagement
trend list and the feed trend list — the `rank` fields are exactly
`1..N` in list order, where `N` is the length of the returned list (for the
search-engagement collector the list is the top-20 truncation, ranked
contiguously from 1). -/
theorem rank_contiguity (crs : List (Option (List Tweet))) (now : Nat)
    (geo : String) (items : List RssItem) (m : Nat) :
    (find_trending_topics crs now).trends.map (fun t => t.rank) =
      List.range' 1 ((find_trending_topics crs now).trends.length) ∧
    (fetch_trends geo (.parsed items) m).trends.map (fun t => t.rank) =
      List.range' 1 ((fetch_trends geo (.parsed items) m).trends.length) := by
  constructor
  · simp only [find_trending_topics]
    apply map_rank_enum_take
    intro p
    rfl
  · simp only [fetch_trends]
    apply map_rank_enum
    intro p
    rfl

/-- A tweet carrying 21 distinct hashtags (used to exercise the top-20
truncation). -/
def tweet21 : Tweet :=
  { hashtags := some ["a01", "a02", "a03", "a04", "a05", "a06", "a07", "a08", "a09",
      "a10", "a11", "a12", "a13", "a14", "a15", "a16", "a17", "a18", "a19", "a20", "a21"],
    like_count := 0, retweet_count := 0, reply_count := 0 }

/-- C9 (confirmed). `find_trending_topics` reports `count` as the number of
distinct merged hashtags across all categories before truncation (the
`combined` dict has pairwise-distinct hashtags covering exactly the tags of
the concatenated input), while the returned trend list is truncated to at
most 20 entries; whenever more than 20 distinct hashtags exist, `count`
strictly exceeds the length of `trends`. -/
theorem count_before_truncation (crs : List (Option (List Tweet))) (now : Nat) :
    (find_trending_topics crs now).count = (combineHashtags (allHashtags crs)).length ∧
    (((combineHashtags (allHashtags crs)).map (fun c => c.hashtag)).Nodup) ∧
    (∀ tag, tag ∈ (combineHashtags (allHashtags crs)).map (fun c => c.hashtag) ↔
      tag ∈ (allHashtags crs).map (fun h => h.hashtag)) ∧
    (find_trending_topics crs now).trends.length =
      min 20 (find_trending_topics crs now).count ∧
    (20 < (find_trending_topics crs now).count →
      (find_trending_topics crs now).trends.length <
        (find_trending_topics crs now).count) := by
  have hcount : (find_trending_topics crs now).count =
      (combineHashtags (allHashtags crs)).length := by
    simp [find_trending_topics, List.length_insertionSort, List.enum_length]
  have hlen : (find_trending_topics crs now).trends.length =
      min 20 (find_trending_topics crs now).count := by
    simp [find_trending_topics, List.length_take]
  refine ⟨hcount, ?_, ?_, hlen, ?_⟩
  · exact nodup_map_combine (allHashtags crs) [] (by simp)
  · intro tag
    have h := mem_map_combine (allHashtags crs) [] tag
    simpa using h
  · intro h20
    rw [hlen, Nat.min_eq_left (Nat.le_of_lt h20)]
    exact h20

/-- C9 (witness): one category whose single tweet carries 21 distinct
hashtags; the truncation hypothesis is discharged at this input. -/
theorem count_before_truncation_witness :
    20 < (find_trending_topics [some [tweet21]] 0).count ∧
    (find_trending_topics [some [tweet21]] 0).trends.length <
      (find_trending_topics [some [tweet21]] 0).count :=
  ⟨by decide, (count_before_truncation [some [tweet21]] 0).2.2.2.2 (by decide)⟩

/-- A cached twitter trend record (already normalized). -/
def trendX : TwTrend :=
  { hashtag := "#x", mentions := 2, total_engagement := 5, velocity_score := 5,
    rank := 1, source := "twitter_search", timestamp := 3, topic := some "#x" }

/-- A previously cached twitter trends document. -/
def twBody0 : TwitterBody :=
  { success := true, count := 1, trends := [trendX], fetched_at := 3 }

/-- A failure-shaped collector result. -/
def failResult : TwitterFetchResult :=
  { success := false, count := 0, trends := [], fetched_at := 0, error := some "HTTP 429" }

/-- C4 (confirmed). Under `force_refresh = true` (and on the always-fresh
`/trends/refresh` route) a failing collector result yields a 500 error
response whose body carries only the error strings — the cached entry is
returned unchanged as the post-request cache state (not overwritten, not
deleted) and its content is not served as a fallback. -/
theorem force_refresh_failure_preserves_cache (limit : Nat)
    (cache : DiskSlot TwitterBody) (now : Nat) (r : TwitterFetchResult)
    (hfail : r.success = false) :
    get_twitter_trends limit true cache now r =
      (.err 500 "Failed to fetch trends" (r.error.getD "Unknown error") none, cache) ∧
    refresh_trends cache now r =
      (.err 500 "Failed to refresh trends" (r.error.getD "Unknown error") none, cache) := by
  constructor
  · have h1 : get_twitter_trends limit true cache now r = twitterFetchPath limit cache now r := by
      cases cache with
      | none => rfl
      | some p => rfl
    rw [h1]
    simp [twitterFetchPath, hfail]
  · simp [refresh_trends, hfail]

/-- C4 (witness): a failing collector result against a populated cache slot. -/
theorem force_refresh_failure_preserves_cache_witness :
    get_twitter_trends 20 true (some (twBody0, 5)) 50 failResult =
      (.err 500 "Failed to fetch trends" (failResult.error.getD "Unknown error") none,
       some (twBody0, 5)) ∧
    refresh_trends (some (twBody0, 5)) 50 failResult =
      (.err 500 "Failed to refresh trends" (failResult.error.getD "Unknown error") none,
       some (twBody0, 5)) :=
  force_refresh_failure_preserves_cache 20 (some (twBody0, 5)) 50 failResult (by decide)

/-- A cached query-search response (as stored by a previous miss). -/
def searchBodyQ : SearchBody :=
  { success := true, query := "ai", count := 0, tweets := [], fetched_at := 0,
    cached := some false }

/-- C3 (counterexample). The in-memory query-search slot serves a fresh hit
(age = TTL − 1 = 3599 s) with `cached = True` but with NO
`cache_age_seconds` key, so the claim that every fresh hit reports its age
in `cache_age_seconds` fails on this cache slot. -/
theorem query_cache_missing_age_counterexample :
    ((get_twitter_for_trend "ai" 10 (some (twitter_cache_set searchBodyQ 0)) 3599
        (.fetchOk [])).1.2).cached = some true ∧
    ((get_twitter_for_trend "ai" 10 (some (twitter_cache_set searchBodyQ 0)) 3599
        (.fetchOk [])).1.2).cache_age_seconds = none := by decide

/-- C3 (amended). Cache freshness is a strict boundary for every cache slot:
an entry whose age equals its TTL is a miss (the disk-backed reads fall
through to the fetch path; the in-memory read returns nothing and deletes
the entry), and an entry at age TTL − 1 is served as fresh with
`cached = True`. The three disk-backed slots (TTLs 3600, 43200, 7200)
additionally report the age in `cache_age_seconds`; the in-memory
query-search slot (TTL 3600) serves the stored body without a
`cache_age_seconds` key. -/
theorem cache_strict_boundary :
    (∀ (limit : Nat) (stored : TwitterBody) (mtime : Nat) (r : TwitterFetchResult),
      get_twitter_trends limit false (some (stored, mtime)) (mtime + 3600) r =
        twitterFetchPath limit (some (stored, mtime)) (mtime + 3600) r) ∧
    (∀ (limit : Nat) (stored : TwitterBody) (mtime : Nat) (r : TwitterFetchResult),
      get_twitter_trends limit false (some (stored, mtime)) (mtime + 3599) r =
        (.ok { stored with
            trends := (stored.trends.map normalizeTrend).take limit,
            cached := some true, cache_age_seconds := some 3599 },
         some (stored, mtime))) ∧
    (∀ (limit : Nat) (geo : String) (stored : GoogleBody) (mtime : Nat) (u : SerpUpstream),
      get_google_trends limit false geo (some (stored, mtime)) (mtime + 43200) u =
        googleFetchPath limit geo (some (stored, mtime)) (mtime + 43200) u) ∧
    (∀ (limit : Nat) (geo : String) (stored : GoogleBody) (mtime : Nat) (u : SerpUpstream),
      get_google_trends limit false geo (some (stored, mtime)) (mtime + 43199) u =
        (.ok { stored with
            trends := if limit ≠ 0 ∧ limit < stored.trends.length then
                stored.trends.take limit
              else stored.trends,
            cached := some true, cache_age_seconds := some 43199,
            cache_age_hours := some (googleHours 43199) },
         some (stored, mtime))) ∧
    (∀ (limit : Nat) (geo : String) (stored : RssBody) (mtime : Nat) (u : RssUpstream),
      get_google_trends_rss limit geo false (some (stored, mtime)) (mtime + 7200) u =
        rssFetchPath limit geo (some (stored, mtime)) (mtime + 7200) u) ∧
    (∀ (limit : Nat) (geo : String) (stored : RssBody) (mtime : Nat) (u : RssUpstream),
      get_google_trends_rss limit geo false (some (stored, mtime)) (mtime + 7199) u =
        (.ok { stored with
            trends := stored.trends.take limit,
            cached := some true, cache_age_seconds := some 7199 },
         some (stored, mtime))) ∧
    (∀ (α : Type) (d : α) (t0 : Nat),
      twitter_cache_get (some (twitter_cache_set d t0)) (t0 + 3600) = (none, none)) ∧
    (∀ (α : Type) (d : α) (t0 : Nat),
      twitter_cache_get (some (twitter_cache_set d t0)) (t0 + 3599) =
        (some d, some (twitter_cache_set d t0))) ∧
    (∀ (q : String) (lim : Nat) (d : SearchBody) (t0 : Nat) (f : TweetsFetch),
      get_twitter_for_trend q lim (some (twitter_cache_set d t0)) (t0 + 3599) f =
        ((200, { d with cached := some true }),
         some { data := { d with cached := some true }, expires := t0 + 3600 })) := by
  refine ⟨?_, ?_, ?_, ?_, ?_, ?_, ?_, ?_, ?_⟩
  · intro limit stored mtime r
    simp [get_twitter_trends, Nat.add_sub_cancel_left]
  · intro limit stored mtime r
    simp [get_twitter_trends, Nat.add_sub_cancel_left]
  · intro limit geo stored mtime u
    simp [get_google_trends, Nat.add_sub_cancel_left]
  · intro limit geo stored mtime u
    simp [get_google_trends, Nat.add_sub_cancel_left]
  · intro limit geo stored mtime u
    simp [get_google_trends_rss, Nat.add_sub_cancel_left]
  · intro limit geo stored mtime u
    simp [get_google_trends_rss, Nat.add_sub_cancel_left]
  · intro α d t0
    simp [twitter_cache_get, twitter_cache_set]
  · intro α d t0
    simp [twitter_cache_get, twitter_cache_set]
  · intro q lim d t0 f
    simp [get_twitter_for_trend, twitter_cache_get, twitter_cache_set]

/-- Projects the JSON body out of a successful route outcome. -/
def okGoogleBody : ApiResult GoogleBody → Option GoogleBody
  | .ok b => some b
  | .err _ _ _ _ => none

/-- A sample aggregator trend object. -/
def gq1 : GTrend := { query := "q1" }

/-- Another pair of sample aggregator trend objects. -/
def gqa : GTrend := { query := "qa" }

def gqb : GTrend := { query := "qb" }

/-- C10 (confirmed). A fresh aggregator fetch with non-zero limit `L`
persists only the first `L` upstream trends to the cache slot, and any
subsequent non-fresh read within the 43200 s TTL — whatever limit it
requests — serves at most `L` trends. -/
theorem google_cache_truncated_persist (geo : String) (L : Nat) (ts : List GTrend)
    (cache : DiskSlot GoogleBody) (now : Nat) (hL : L ≠ 0) (hts : ts ≠ []) :
    (get_google_trends L true geo cache now (.response none ts)).2 =
      some ({ success := true, count := (ts.take L).length, total_available := ts.length,
              geo := geo, fetched_at := now, source := "serpapi_trending_now",
              trends := ts.take L, cached := some false }, now) ∧
    (ts.take L).length ≤ L ∧
    ∀ (L2 now2 : Nat) (u2 : SerpUpstream) (b2 : GoogleBody),
      now2 - now < 43200 →
      (get_google_trends L2 false geo
          ((get_google_trends L true geo cache now (.response none ts)).2) now2 u2).1 =
        .ok b2 →
      b2.trends.length ≤ L := by
  have hempty : ts.isEmpty = false := by
    cases ts with
    | nil => exact absurd rfl hts
    | cons a l => rfl
  have e1 : get_google_trends L true geo cache now (.response none ts) =
      (.ok { success := true, count := (ts.take L).length, total_available := ts.length,
             geo := geo, fetched_at := now, source := "serpapi_trending_now",
             trends := ts.take L, cached := some false },
       some ({ success := true, count := (ts.take L).length, total_available := ts.length,
               geo := geo, fetched_at := now, source := "serpapi_trending_now",
               trends := ts.take L, cached := some false }, now)) := by
    have h1 : get_google_trends L true geo cache now (.response none ts) =
        googleFetchPath L geo cache now (.response none ts) := by
      cases cache with
      | none => rfl
      | some p => rfl
    rw [h1]
    simp [googleFetchPath, get_trending_searches, hempty, hL]
  have hlen : (ts.take L).length ≤ L := by
    rw [List.length_take]
    exact Nat.min_le_left _ _
  refine ⟨by rw [e1], hlen, ?_⟩
  intro L2 now2 u2 b2 h1 h2
  rw [e1] at h2
  simp only [get_google_trends, if_pos h1] at h2
  rw [ApiResult.ok.injEq] at h2
  rw [← h2]
  split_ifs with hc
  · rw [List.length_take]
    exact Nat.le_trans (Nat.min_le_right _ _) hlen
  · exact hlen

/-- C10 (witness): fetch with limit 1 over two upstream trends, then read
back with limit 5 at age 10 s. -/
theorem google_cache_truncated_persist_witness :
    ({ success := true, count := 1, total_available := 2, geo := "US", fetched_at := 0,
       source := "serpapi_trending_now", trends := [gqa], cached := some true,
       cache_age_seconds := some 10, cache_age_hours := some (googleHours 10) }
      : GoogleBody).trends.length ≤ 1 :=
  (google_cache_truncated_persist "US" 1 [gqa, gqb] none 0 (by decide) (by decide)).2.2
    5 10 (.requestError "x")
    { success := true, count := 1, total_available := 2, geo := "US", fetched_at := 0,
      source := "serpapi_trending_now", trends := [gqa], cached := some true,
      cache_age_seconds := some 10, cache_age_hours := some (googleHours 10) }
    (by decide) (by rfl)

/-- C8 (counterexample). On the aggregator slot the read path adds a third
field: a freshly written cache document has no `cache_age_hours` key, but a
read within TTL returns the body with `cache_age_hours` present — so the
read path does not add only `cached` and `cache_age_seconds`. -/
theorem google_read_adds_hours_counterexample :
    ((okGoogleBody (get_google_trends 20 false "US" none 0 (.response none [gq1])).1).map
        (fun b => b.cache_age_hours)) = some none ∧
    ((okGoogleBody (get_google_trends 20 false "US"
          ((get_google_trends 20 false "US" none 0 (.response none [gq1])).2) 7200
          (.response none [gq1])).1).map (fun b => b.cache_age_hours)) =
      some (some (googleHours 7200)) ∧
    (some (googleHours 7200) : Option ℚ) ≠ none := by
  refine ⟨rfl, rfl, by simp⟩

/-- C8 (amended). Round-trip for the twitter and aggregator disk slots:
writing a successfully fetched result and reading it back before TTL expiry
with the same requested limit yields exactly the same `trends` content and
unchanged `success`/`count`/`fetched_at` fields; the read path annotates
`cached = True` and `cache_age_seconds`, and on the aggregator slot
additionally `cache_age_hours`. The read leaves the slot state unchanged. -/
theorem cache_round_trip (limit : Nat) (r : TwitterFetchResult) (now now2 : Nat)
    (geo : String) (L : Nat) (ts : List GTrend) (m m2 : Nat) (u2 : SerpUpstream)
    (hs : r.success = true) (hage : now2 - now < 3600)
    (hL : L ≠ 0) (hts : ts ≠ []) (hage2 : m2 - m < 43200) :
    ((get_twitter_trends limit false none now r).1 =
      .ok { success := true, count := r.count,
            trends := (r.trends.map normalizeTrend).take limit,
            fetched_at := r.fetched_at, error := r.error, cached := some false }) ∧
    ((get_twitter_trends limit false ((get_twitter_trends limit false none now r).2)
        now2 r).1 =
      .ok { success := true, count := r.count,
            trends := (r.trends.map normalizeTrend).take limit,
            fetched_at := r.fetched_at, error := r.error, cached := some true,
            cache_age_seconds := some (now2 - now) }) ∧
    ((get_twitter_trends limit false ((get_twitter_trends limit false none now r).2)
        now2 r).2 = (get_twitter_trends limit false none now r).2) ∧
    ((get_google_trends L false geo none m (.response none ts)).1 =
      .ok { success := true, count := (ts.take L).length, total_available := ts.length,
            geo := geo, fetched_at := m, source := "serpapi_trending_now",
            trends := ts.take L, cached := some false }) ∧
    ((get_google_trends L false geo
        ((get_google_trends L false geo none m (.response none ts)).2) m2 u2).1 =
      .ok { success := true, count := (ts.take L).length, total_available := ts.length,
            geo := geo, fetched_at := m, source := "serpapi_trending_now",
            trends := ts.take L, cached := some true, cache_age_seconds := some (m2 - m),
            cache_age_hours := some (googleHours (m2 - m)) }) ∧
    ((get_google_trends L false geo
        ((get_google_trends L false geo none m (.response none ts)).2) m2 u2).2 =
      (get_google_trends L false geo none m (.response none ts)).2) := by
  have hidem : (r.trends.map normalizeTrend).map normalizeTrend =
      r.trends.map normalizeTrend := by
    rw [List.map_map]
    exact List.map_congr_left (fun t _ => normalizeTrend_idem t)
  have e1 : get_twitter_trends limit false none now r =
      (.ok { success := true, count := r.count,
             trends := (r.trends.map normalizeTrend).take limit,
             fetched_at := r.fetched_at, error := r.error, cached := some false },
       some ({ success := true, count := r.count, trends := r.trends.map normalizeTrend,
               fetched_at := r.fetched_at, error := r.error }, now)) := by
    have h1 : get_twitter_trends limit false none now r = twitterFetchPath limit none now r :=
      rfl
    rw [h1]
    simp [twitterFetchPath, hs]
  have hempty : ts.isEmpty = false := by
    cases ts with
    | nil => exact absurd rfl hts
    | cons a l => rfl
  have eg : get_google_trends L false geo none m (.response none ts) =
      (.ok { success := true, count := (ts.take L).length, total_available := ts.length,
             geo := geo, fetched_at := m, source := "serpapi_trending_now",
             trends := ts.take L, cached := some false },
       some ({ success := true, count := (ts.take L).length, total_available := ts.length,
               geo := geo, fetched_at := m, source := "serpapi_trending_now",
               trends := ts.take L, cached := some false }, m)) := by
    have h1 : get_google_trends L false geo none m (.response none ts) =
        googleFetchPath L geo none m (.response none ts) := rfl
    rw [h1]
    simp [googleFetchPath, get_trending_searches, hempty, hL]
  have hnotrunc : ¬ (L ≠ 0 ∧ L < (ts.take L).length) := by
    rintro ⟨-, hlt⟩
    rw [List.length_take] at hlt
    exact absurd hlt (Nat.not_lt.mpr (Nat.min_le_left _ _))
  refine ⟨by rw [e1], ?_, ?_, by rw [eg], ?_, ?_⟩
  · rw [e1]
    simp [get_twitter_trends, if_pos hage, hidem]
  · rw [e1]
    simp [get_twitter_trends, if_pos hage]
  · rw [eg]
    simp [get_google_trends, if_pos hage2, if_neg hnotrunc]
  · rw [eg]
    simp [get_google_trends, if_pos hage2]

/-- A successful collector result whose trend still lacks a `topic` key. -/
def okFetch : TwitterFetchResult :=
  { success := true, count := 1, fetched_at := 3,
    trends := [{ hashtag := "#y", mentions := 1, total_engagement := 4,
                 velocity_score := 4, rank := 1, source := "twitter_search",
                 timestamp := 3, topic := none }] }

/-- C8 (witness): the round trip at concrete inputs — twitter slot written at
t=0 and read at t=100, aggregator slot written at t=0 with limit 1 over two
upstream trends and read at t=10. -/
theorem cache_round_trip_witness :
    ((get_twitter_trends 20 false none 0 okFetch).1 =
      .ok { success := true, count := okFetch.count,
            trends := (okFetch.trends.map normalizeTrend).take 20,
            fetched_at := okFetch.fetched_at, error := okFetch.error,
            cached := some false }) ∧
    ((get_twitter_trends 20 false ((get_twitter_trends 20 false none 0 okFetch).2)
        100 okFetch).1 =
      .ok { success := true, count := okFetch.count,
            trends := (okFetch.trends.map normalizeTrend).take 20,
            fetched_at := okFetch.fetched_at, error := okFetch.error,
            cached := some true, cache_age_seconds := some (100 - 0) }) ∧
    ((get_twitter_trends 20 false ((get_twitter_trends 20 false none 0 okFetch).2)
        100 okFetch).2 = (get_twitter_trends 20 false none 0 okFetch).2) ∧
    ((get_google_trends 1 false "US" none 0 (.response none [gqa, gqb])).1 =
      .ok { success := true, count := (([gqa, gqb] : List GTrend).take 1).length,
            total_available := ([gqa, gqb] : List GTrend).length,
            geo := "US", fetched_at := 0, source := "serpapi_trending_now",
            trends := [gqa, gqb].take 1, cached := some false }) ∧
    ((get_google_trends 1 false "US"
        ((get_google_trends 1 false "US" none 0 (.response none [gqa, gqb])).2) 10
        (.requestError "x")).1 =
      .ok { success := true, count := (([gqa, gqb] : List GTrend).take 1).length,
            total_available := ([gqa, gqb] : List GTrend).length,
            geo := "US", fetched_at := 0, source := "serpapi_trending_now",
            trends := [gqa, gqb].take 1, cached := some true,
            cache_age_seconds := some (10 - 0),
            cache_age_hours := some (googleHours (10 - 0)) }) ∧
    ((get_google_trends 1 false "US"
        ((get_google_trends 1 false "US" none 0 (.response none [gqa, gqb])).2) 10
        (.requestError "x")).2 =
      (get_google_trends 1 false "US" none 0 (.response none [gqa, gqb])).2) :=
  cache_round_trip 20 okFetch 0 100 "US" 1 [gqa, gqb] 0 10 (.requestError "x")
    (by decide) (by decide) (by decide) (by decide) (by decide)
